import Mathlib

/-!
Verification of the `ai-foundry-agents-practical` repository specification.

The development shallowly embeds the parts of the repository the claims
concern:

* `SqliteMcp` — the toy MCP SQLite JSON-RPC server
  (`04-mcp/exercises/scripts/setup_sqlite_mcp_server.py`): the `db_query`
  helper, the `TOOLS` dispatch table, the JSON-RPC handler `handle_mcp`,
  and the HTTP routing of `do_GET` / `do_POST`.  SQLite itself is external
  to the repository, so it is abstracted as an `Engine`: a function from a
  database state and an SQL string to rows, a rowcount, and a next state
  (or an error, modelling a raised `sqlite3` exception).
* `MockMcp` — the in-process mock MCP server
  (`04-mcp/exercises/exercise_1_mocking_mcp_server.py`): the
  `BasicMCPServer` state (its `tools` / `resources` dictionaries) and its
  `handle_request` / `call_tool` methods.  The Python `eval` builtin and
  the system clock used by two mock tools are external effects and are
  abstracted as parameters.
* `Polling` — the run-polling loops of
  `04-mcp/exercises/exercise_2_mcp_agents.py` (bounded by
  `max_attempts = 60`) and `01-fundamentals/exercises/exercise_2_basic_agent.py`
  (unbounded `while status in ["queued", "in_progress"]`).  The remote
  service is abstracted as a stream of statuses returned by successive
  `runs.get` calls.
* `Scripts` — a coarse step-sequence abstraction of the top-level control
  flow of each of the fifteen source files, for the claim about the common
  script shape.
-/

namespace SqliteMcp

/-- A JSON-RPC request id: the ids the scripts send are strings or
integers.  `Option RpcId` models presence; `none` models an absent id
(Python `req.get("id")` returning `None`). -/
inductive RpcId where
  | str (s : String)
  | num (n : Int)
deriving DecidableEq

/-- A fetched database row, as produced by `sqlite3.Row` converted with
`dict(row)`: association list from column name to (stringified) value. -/
abbrev Row := List (String × String)

/-- Result of `db_query`: either the fetched rows (read branch) or the
`affected` rowcount dictionary (write branch). -/
inductive DbResult where
  | rows (rs : List Row)
  | affected (n : Int)
deriving DecidableEq

/-- Abstraction of the SQLite library (external to the repository): given
a database state, an SQL text and parameters, `exec` returns the fetched
rows, the cursor rowcount and the successor database state, or an error
message modelling a raised `sqlite3` exception. -/
structure Engine (σ : Type) where
  exec : σ → String → List String → Except String (List Row × Int × σ)

variable {σ : Type}

/-- Python `str` whitespace, as stripped by `str.strip()`. -/
def pyIsSpace (c : Char) : Bool :=
  c == ' ' || c == Char.ofNat 9 || c == Char.ofNat 10 ||
    c == Char.ofNat 13 || c == Char.ofNat 11 || c == Char.ofNat 12

/-- Whether the first list starts with the second. -/
def listStartsWith [DecidableEq α] : List α → List α → Bool
  | _, [] => true
  | [], _ :: _ => false
  | a :: as, b :: bs => a = b && listStartsWith as bs

/-- Python `str.strip()`, modelled at the character level so statements
about it evaluate by kernel reduction. -/
def pyStrip (s : String) : String :=
  String.mk (((s.data.dropWhile pyIsSpace).reverse.dropWhile pyIsSpace).reverse)

/-- Python `str.upper()` for the ASCII texts the server handles. -/
def pyUpper (s : String) : String :=
  String.mk (s.data.map Char.toUpper)

/-- Python `str.startswith(pat)`. -/
def pyStartsWith (s pat : String) : Bool :=
  listStartsWith s.data pat.data

/-- The branch condition of `db_query`
(`sql.strip().upper().startswith("SELECT") or ...startswith("PRAGMA")`). -/
def isReadSql (sql : String) : Bool :=
  pyStartsWith (pyUpper (pyStrip sql)) "SELECT" || pyStartsWith (pyUpper (pyStrip sql)) "PRAGMA"

/-- `db_query(sql, params=None)` from `setup_sqlite_mcp_server.py`.
The returned `Bool` records whether the explicit `conn.commit()` call in
the source runs (it appears only in the non-SELECT/PRAGMA branch).
`params.getD []` models `params or []`. -/
def db_query (e : Engine σ) (st : σ) (sql : String) (params : Option (List String)) :
    Except String (DbResult × Bool × σ) :=
  match e.exec st sql (params.getD []) with
  | .error msg => .error msg
  | .ok (rows, rowcount, st2) =>
    if isReadSql sql then
      .ok (.rows rows, false, st2)
    else
      .ok (.affected rowcount, true, st2)

/-- The `items` member of a JSON-schema property. -/
structure PropItems where
  type : String
deriving DecidableEq

/-- A property entry of a tool input schema. -/
structure PropSpec where
  type : String
  description : Option String := none
  items : Option PropItems := none
deriving DecidableEq

/-- A tool `inputSchema` object. -/
structure InputSchema where
  type : String
  properties : List (String × PropSpec) := []
  required : List String := []
deriving DecidableEq

/-- A value of the `TOOLS` dictionary. -/
structure ToolInfo where
  description : String
  inputSchema : InputSchema
deriving DecidableEq

/-- The `TOOLS` dispatch table of `setup_sqlite_mcp_server.py`. -/
def TOOLS : List (String × ToolInfo) :=
  [ ("sql_query",
      { description := "Execute SQL queries on the database",
        inputSchema :=
          { type := "object",
            properties :=
              [ ("query", { type := "string", description := some "SQL query to execute" }),
                ("params", { type := "array", items := some { type := "string" },
                             description := some "Query parameters" }) ],
            required := ["query"] } }),
    ("list_tables",
      { description := "List all tables in the database",
        inputSchema := { type := "object" } }),
    ("table_schema",
      { description := "Get schema for a table",
        inputSchema :=
          { type := "object",
            properties := [ ("table", { type := "string", description := some "Table name" }) ],
            required := ["table"] } }) ]

/-- The tool names of the dispatch table. -/
def toolNames : List String := TOOLS.map Prod.fst

/-- The fields of `params["arguments"]` that the handler reads. -/
structure ToolArgs where
  query : Option String := none
  params : Option (List String) := none
  table : Option String := none
deriving DecidableEq

/-- The fields of `params` that the handler reads. -/
structure MCPParams where
  name : Option String := none
  arguments : Option ToolArgs := none
  uri : Option String := none
deriving DecidableEq

/-- An incoming JSON-RPC request, restricted to the keys the handler
reads; `none` models an absent key. -/
structure MCPRequest where
  method : Option String := none
  params : Option MCPParams := none
  id : Option RpcId := none
deriving DecidableEq

/-- An entry of the `tools/list` result. -/
structure ToolEntry where
  name : String
  description : String
  inputSchema : InputSchema
deriving DecidableEq

/-- An entry of the `resources/list` result. -/
structure ResourceEntry where
  uri : String
  name : String
  description : String
deriving DecidableEq

/-- The `result` payload of a successful response, one constructor per
success branch of `handle_mcp`. -/
inductive MCPResult where
  | initResult (protocolVersion serverName serverVersion : String)
      (tools : List (String × ToolInfo))
  | toolsList (tools : List ToolEntry)
  | toolCall (text : String) (isError : Bool)
  | resourcesList (resources : List ResourceEntry)
  | resourcesRead (text : String)
deriving DecidableEq

/-- A JSON-RPC error object. -/
structure ErrObj where
  code : Int
  message : String
  data : Option String := none
deriving DecidableEq

/-- A JSON-RPC response as built by the handlers: every branch of the
source constructs a dictionary with a `jsonrpc` and an `id` key and either
a `result` or an `error` key. -/
structure MCPResponse where
  jsonrpc : String
  id : Option RpcId
  result : Option MCPResult := none
  error : Option ErrObj := none
deriving DecidableEq

/-- Simplified JSON string serialization (escaping not modelled; no claim
inspects serialized text). -/
def dumpsStr (s : String) : String := "\"" ++ s ++ "\""

/-- Serialization of one row dictionary. -/
def dumpsRow (r : Row) : String :=
  "\x7b" ++ String.intercalate ", "
    (r.map (fun kv => dumpsStr kv.1 ++ ": " ++ dumpsStr kv.2)) ++ "\x7d"

/-- `json.dumps(result)` for a `db_query` result (indentation not
modelled; no claim inspects serialized text). -/
def dumpsDbResult : DbResult → String
  | .rows rs => "[" ++ String.intercalate ", " (rs.map dumpsRow) ++ "]"
  | .affected n => "\x7b\"affected\": " ++ toString n ++ "\x7d"

/-- Rows of a `db_query` result.  The two call sites that iterate rows
run SELECT statements, for which `db_query` always returns `.rows`; the
`.affected` case is unreachable there. -/
def dbRows : DbResult → List Row
  | .rows rs => rs
  | .affected _ => []

/-- `row["name"]`-style lookup.  The rows it is applied to come from
`SELECT name FROM sqlite_master`, which always has the column. -/
def rowLookup (row : Row) (k : String) : String :=
  match row.find? (fun kv => kv.1 == k) with
  | some kv => kv.2
  | none => ""

/-- The apostrophe character, used in SQL literals. -/
def sqlQuote : String := (Char.ofNat 39).toString

/-- The table-listing query text
`SELECT name FROM sqlite_master WHERE type='table'`. -/
def sqliteMasterSql : String :=
  "SELECT name FROM sqlite_master WHERE type=" ++ sqlQuote ++ "table" ++ sqlQuote

/-- Python `f"...: {x}"` formatting of an optional string (`None` prints
as `None`). -/
def pyOptStr : Option String → String
  | none => "None"
  | some s => s

/-- The `sql_query` tool body of the `tools/call` branch. -/
def runSqlQuery (e : Engine σ) (st : σ) (args : ToolArgs) :
    Except String (DbResult × σ) :=
  let query := pyStrip (args.query.getD "")
  if query = "" then .error "Query parameter is required"
  else
    match db_query e st query args.params with
    | .error m => .error m
    | .ok (r, _, st2) => .ok (r, st2)

/-- The `list_tables` tool body of the `tools/call` branch. -/
def runListTables (e : Engine σ) (st : σ) : Except String (DbResult × σ) :=
  match db_query e st sqliteMasterSql none with
  | .error m => .error m
  | .ok (r, _, st2) => .ok (r, st2)

/-- The `table_schema` tool body of the `tools/call` branch. -/
def runTableSchema (e : Engine σ) (st : σ) (args : ToolArgs) :
    Except String (DbResult × σ) :=
  let table := pyStrip (args.table.getD "")
  if table = "" then .error "Table parameter is required"
  else
    match db_query e st ("PRAGMA table_info(" ++ table ++ ")") none with
    | .error m => .error m
    | .ok (r, _, st2) => .ok (r, st2)

/-- The tool dispatch of the `tools/call` branch of `handle_mcp`. -/
def dispatchToolCall (e : Engine σ) (st : σ) (tool : Option String) (args : ToolArgs) :
    Except String (DbResult × σ) :=
  if tool = some "sql_query" then runSqlQuery e st args
  else if tool = some "list_tables" then runListTables e st
  else if tool = some "table_schema" then runTableSchema e st args
  else .error ("Unknown tool: " ++ pyOptStr tool)

/-- Which tool implementation the `tools/call` dispatch reaches for a
given `params["name"]` (`none`: the unknown-tool branch). -/
def toolBranch (tool : Option String) : Option String :=
  if tool = some "sql_query" then some "sql_query"
  else if tool = some "list_tables" then some "list_tables"
  else if tool = some "table_schema" then some "table_schema"
  else none

/-- The body of the `try:` block of `MCPHandler.handle_mcp`: each
JSON-RPC method branch.  A `ValueError`-raise or an SQLite error becomes
`.error`; the final `else` returns the `-32601` method-not-found
response. -/
def mcpInner (e : Engine σ) (st : σ) (req : MCPRequest) :
    Except String (MCPResponse × σ) :=
  let method := req.method.getD ""
  let params := req.params.getD {}
  let reqId := req.id
  if method = "initialize" then
    .ok ({ jsonrpc := "2.0", id := reqId,
           result := some (.initResult "2025-03-26" "sqlite-mcp" "1.0" TOOLS) }, st)
  else if method = "tools/list" then
    .ok ({ jsonrpc := "2.0", id := reqId,
           result := some (.toolsList (TOOLS.map (fun nt =>
             { name := nt.1, description := nt.2.description,
               inputSchema := nt.2.inputSchema }))) }, st)
  else if method = "tools/call" then
    match dispatchToolCall e st params.name (params.arguments.getD {}) with
    | .error m => .error m
    | .ok (result, st2) =>
      .ok ({ jsonrpc := "2.0", id := reqId,
             result := some (.toolCall (dumpsDbResult result) false) }, st2)
  else if method = "resources/list" then
    match db_query e st sqliteMasterSql none with
    | .error m => .error m
    | .ok (res, _, st2) =>
      let resources := (dbRows res).map (fun row =>
        let nm := rowLookup row "name"
        ({ uri := "sqlite:///" ++ nm, name := nm,
           description := "SQLite table: " ++ nm } : ResourceEntry))
      .ok ({ jsonrpc := "2.0", id := reqId,
             result := some (.resourcesList resources) }, st2)
  else if method = "resources/read" then
    let uri := params.uri.getD ""
    if !(pyStartsWith uri "sqlite:///") then
      .error "Invalid resource URI"
    else
      let table := uri.replace "sqlite:///" ""
      match db_query e st ("SELECT * FROM " ++ table) none with
      | .error m => .error m
      | .ok (res, _, st2) =>
        .ok ({ jsonrpc := "2.0", id := reqId,
               result := some (.resourcesRead (dumpsDbResult res)) }, st2)
  else
    .ok ({ jsonrpc := "2.0", id := reqId,
           error := some { code := -32601,
                           message := "Method not found: " ++ method } }, st)

/-- `MCPHandler.handle_mcp`: the `try/except` wrapper around the method
dispatch.  A raised exception is mapped to the `-32603` error response
with the exception text; nothing propagates to the caller. -/
def handle_mcp (e : Engine σ) (st : σ) (req : MCPRequest) : MCPResponse × σ :=
  match mcpInner e st req with
  | .ok r => r
  | .error msg =>
    ({ jsonrpc := "2.0", id := req.id,
       error := some { code := -32603, message := msg } }, st)

/-- An HTTP response of the server: status code and body text (headers
are constant in the source and not modelled). -/
structure HttpResponse where
  status : Nat
  body : String
deriving DecidableEq

/-- The path component extraction `urlparse(self.path).path` for
origin-form request targets: the text before any query or fragment. -/
def parsePath (p : String) : String :=
  String.mk (p.data.takeWhile (fun c => !(c == Char.ofNat 63 || c == Char.ofNat 35)))

/-- `json.dumps({"error": "Not found"})`. -/
def notFoundBody : String := "\x7b\"error\": \"Not found\"\x7d"

/-- `json.dumps({"error": "Invalid JSON"})`. -/
def invalidJsonBody : String := "\x7b\"error\": \"Invalid JSON\"\x7d"

/-- The `/health` response body. -/
def healthBody : String :=
  "\x7b\"status\": \"healthy\", \"server\": \"sqlite-mcp\", \"protocol\": \"2025-03-26\"\x7d"

/-- The `/capabilities` response body (tool-table serialization
abbreviated; no claim inspects it). -/
def capabilitiesBody : String :=
  "\x7b\"protocolVersion\": \"2025-03-26\", \"serverInfo\": \"sqlite-mcp 1.0\", \"capabilities\": " ++
    String.intercalate ", " (TOOLS.map Prod.fst) ++ "\x7d"

/-- Serialization of a response id (`None` prints as JSON `null`). -/
def dumpsRpcId : Option RpcId → String
  | none => "null"
  | some (.str s) => dumpsStr s
  | some (.num n) => toString n

/-- Abbreviated serialization of a JSON-RPC response, used for the POST
body (no claim inspects serialized text). -/
def dumpsResponse (r : MCPResponse) : String :=
  "\x7b\"jsonrpc\": " ++ dumpsStr r.jsonrpc ++ ", \"id\": " ++ dumpsRpcId r.id ++ "\x7d"

/-- `MCPHandler.do_GET`: `_set_headers()` always sends status 200, then
the body is chosen by path; unknown paths get the `Not found` body with
that same 200 status. -/
def do_GET (rawPath : String) : HttpResponse :=
  let path := parsePath rawPath
  if path = "/health" then { status := 200, body := healthBody }
  else if path = "/capabilities" then { status := 200, body := capabilitiesBody }
  else { status := 200, body := notFoundBody }

/-- `MCPHandler.do_POST`.  The request body is given already parsed
(`.error` models `json.loads` raising, answered with status 400). -/
def do_POST (e : Engine σ) (st : σ) (rawPath : String)
    (body : Except Unit MCPRequest) : HttpResponse × σ :=
  let path := parsePath rawPath
  if !((["/", "/mcp"] : List String).contains path) then
    ({ status := 404, body := notFoundBody }, st)
  else
    match body with
    | .error _ => ({ status := 400, body := invalidJsonBody }, st)
    | .ok req =>
      let rs := handle_mcp e st req
      ({ status := 200, body := dumpsResponse rs.1 ++ "\n" }, rs.2)

/-- A trivial SQLite engine (empty result set for every statement),
used to instantiate statements at concrete inputs. -/
def unitEngine : Engine Unit := ⟨fun st _ _ => .ok ([], 0, st)⟩

/-- Whether a response is the `-32601` method-not-found error. -/
def isMethodNotFound (r : MCPResponse) : Bool :=
  match r.error with
  | some err => err.code == -32601
  | none => false

/-- The JSON-RPC method names `handle_mcp` dispatches (every other
method name falls through to the method-not-found response). -/
def handledMethods : List String :=
  ["initialize", "tools/list", "tools/call", "resources/list", "resources/read"]

/-- Whether `handle_mcp` dispatches a given method name rather than
answering method-not-found (probed on the trivial engine; by
`handle_mcp_methodNotFound` the answer is independent of the engine,
database and remaining request fields). -/
def dispatches (m : String) : Bool :=
  !(isMethodNotFound (handle_mcp unitEngine () { method := some m }).1)

/-- The spec claim that the handler dispatches exactly six distinct
JSON-RPC method names, stated over the embedding: some duplicate-free
list of six method names collects exactly the dispatched ones. -/
def claimSixMethods : Prop :=
  ∃ ms : List String, ms.Nodup ∧ ms.length = 6 ∧ ∀ m, dispatches m = true ↔ m ∈ ms

end SqliteMcp

namespace MockMcp

open SqliteMcp (RpcId ErrObj InputSchema pyOptStr dumpsStr)

/-- An entry of the mock server's `tools` dictionary
(`exercise_1_mocking_mcp_server.py`). -/
structure MockTool where
  name : String
  description : String
  inputSchema : InputSchema
deriving DecidableEq

/-- An entry of the mock server's `resources` dictionary. -/
structure MockResource where
  uri : String
  name : String
  description : String
  mimeType : String
deriving DecidableEq

/-- The tools `_register_tools` installs. -/
def registeredTools : List (String × MockTool) :=
  [ ("echo",
      { name := "echo", description := "Echo back the input text",
        inputSchema :=
          { type := "object",
            properties := [ ("text", { type := "string",
                                       description := some "Text to echo back" }) ],
            required := ["text"] } }),
    ("calculate",
      { name := "calculate", description := "Perform basic arithmetic calculations",
        inputSchema :=
          { type := "object",
            properties := [ ("expression", { type := "string",
                                             description := some ("Mathematical expression to evaluate (e.g., " ++ SqliteMcp.sqlQuote ++ "2 + 3 * 4" ++ SqliteMcp.sqlQuote ++ ")") }) ],
            required := ["expression"] } }),
    ("current_time",
      { name := "current_time", description := "Get the current date and time",
        inputSchema := { type := "object", properties := [], required := [] } }) ]

/-- The resources `_register_resources` installs. -/
def registeredResources : List (String × MockResource) :=
  [ ("server_info",
      { uri := "mcp://server/info", name := "Server Information",
        description := "Information about this MCP server",
        mimeType := "application/json" }),
    ("tools_list",
      { uri := "mcp://server/tools", name := "Available Tools",
        description := "List of all available tools",
        mimeType := "application/json" }) ]

/-- The mutable state of a `BasicMCPServer` instance: its `tools` and
`resources` dictionaries (both empty at construction, filled by the
`initialize` method). -/
structure MockState where
  tools : List (String × MockTool) := []
  resources : List (String × MockResource) := []
deriving DecidableEq

/-- External effects of the mock tools: `evalResult` models the entire
body of `_execute_calculate` (Python `eval` plus its local try/except
formatting), `nowText` the formatted `datetime.now()` of
`_execute_current_time`. -/
structure MockEnv where
  evalResult : String → String
  nowText : String

/-- The argument fields the mock tools read. -/
structure MockArgs where
  text : Option String := none
  expression : Option String := none
deriving DecidableEq

/-- The `params` fields the mock handler reads. -/
structure MockParams where
  name : Option String := none
  arguments : Option MockArgs := none
  uri : Option String := none
deriving DecidableEq

/-- An incoming request to the mock server, restricted to the keys the
handler reads. -/
structure MockRequest where
  method : Option String := none
  params : Option MockParams := none
  id : Option RpcId := none
deriving DecidableEq

/-- The `result` payload of a successful mock response, one constructor
per handler branch. -/
inductive MockResult where
  | initResult (protocolVersion serverName serverVersion : String)
      (toolsListChanged resourcesSubscribe resourcesListChanged : Bool)
  | toolsList (tools : List MockTool)
  | toolCall (text : String)
  | resourcesList (resources : List MockResource)
  | resourcesRead (uri mimeType text : String)
deriving DecidableEq

/-- A mock server JSON-RPC response. -/
structure MockResponse where
  jsonrpc : String
  id : Option RpcId
  result : Option MockResult := none
  error : Option ErrObj := none
deriving DecidableEq

/-- Python membership test `tool_name in self.tools` for an optional
name. -/
def mockHasTool (ts : List (String × MockTool)) : Option String → Bool
  | some k => (ts.find? (fun kv => kv.1 == k)).isSome
  | none => false

/-- Which tool implementation `call_tool` reaches for a given
`params["name"]` against the given tools dictionary (`none`: an
exception-raising branch). -/
def mockToolBranch (ts : List (String × MockTool)) (n : Option String) : Option String :=
  if !(mockHasTool ts n) then none
  else if n = some "echo" then some "echo"
  else if n = some "calculate" then some "calculate"
  else if n = some "current_time" then some "current_time"
  else none

/-- `BasicMCPServer.call_tool`: membership check against `self.tools`,
then per-tool dispatch; returns the text placed in the response
`content`. -/
def mockCallTool (env : MockEnv) (s : MockState) (params : MockParams) :
    Except String String :=
  let toolName := params.name
  let args := params.arguments.getD {}
  if !(mockHasTool s.tools toolName) then
    .error ("Unknown tool: " ++ pyOptStr toolName)
  else if toolName = some "echo" then
    .ok ("Echo: " ++ (args.text.getD ""))
  else if toolName = some "calculate" then
    .ok (env.evalResult (args.expression.getD ""))
  else if toolName = some "current_time" then
    .ok ("Current time: " ++ env.nowText)
  else
    .error ("Tool not implemented: " ++ pyOptStr toolName)

/-- The `mcp://server/info` resource content text
(`json.dumps` of the info dictionary, indentation not modelled). -/
def mockServerInfoText : String :=
  "\x7b\"name\": \"BasicMCPServer\", \"version\": \"1.0.0\", " ++
  "\"description\": \"A basic MCP server for learning\", \"uptime\": \"N/A\"\x7d"

/-- Abbreviated serialization of the tools dictionary for the
`mcp://server/tools` resource (no claim inspects it). -/
def mockToolsText (ts : List (String × MockTool)) : String :=
  "\x7b" ++ String.intercalate ", "
    (ts.map (fun kv => dumpsStr kv.1 ++ ": " ++ dumpsStr kv.2.description)) ++ "\x7d"

/-- `BasicMCPServer.read_resource`: returns the matched uri and content
text, or raises for an unknown uri. -/
def mockReadResource (s : MockState) (params : MockParams) :
    Except String (String × String) :=
  let uri := params.uri
  if uri = some "mcp://server/info" then
    .ok ("mcp://server/info", mockServerInfoText)
  else if uri = some "mcp://server/tools" then
    .ok ("mcp://server/tools", mockToolsText s.tools)
  else
    .error ("Unknown resource URI: " ++ pyOptStr uri)

/-- The body of the `try:` block of `BasicMCPServer.handle_request`:
method routing; an unknown method raises `ValueError`. -/
def mockInner (env : MockEnv) (s : MockState) (req : MockRequest) :
    Except String (MockResponse × MockState) :=
  let method := req.method
  let params := req.params.getD {}
  let reqId := req.id
  if method = some "initialize" then
    .ok ({ jsonrpc := "2.0", id := reqId,
           result := some (.initResult "2024-11-05" "BasicMCPServer" "1.0.0" true true true) },
         { s with tools := registeredTools, resources := registeredResources })
  else if method = some "tools/list" then
    .ok ({ jsonrpc := "2.0", id := reqId,
           result := some (.toolsList (s.tools.map Prod.snd)) }, s)
  else if method = some "tools/call" then
    match mockCallTool env s params with
    | .error m => .error m
    | .ok text =>
      .ok ({ jsonrpc := "2.0", id := reqId, result := some (.toolCall text) }, s)
  else if method = some "resources/list" then
    .ok ({ jsonrpc := "2.0", id := reqId,
           result := some (.resourcesList (s.resources.map Prod.snd)) }, s)
  else if method = some "resources/read" then
    match mockReadResource s params with
    | .error m => .error m
    | .ok ut =>
      .ok ({ jsonrpc := "2.0", id := reqId,
             result := some (.resourcesRead ut.1 "application/json" ut.2) }, s)
  else
    .error ("Unknown method: " ++ pyOptStr method)

/-- `BasicMCPServer.handle_request`: the `try/except` wrapper; a raised
exception becomes the `-32603` response with message `Internal error`
and the exception text in `data`. -/
def handle_request (env : MockEnv) (s : MockState) (req : MockRequest) :
    MockResponse × MockState :=
  match mockInner env s req with
  | .ok r => r
  | .error msg =>
    ({ jsonrpc := "2.0", id := req.id,
       error := some { code := -32603, message := "Internal error",
                       data := some msg } }, s)

/-- States a `BasicMCPServer` can actually be in: freshly constructed
(empty dictionaries) or initialized. -/
def goodState (s : MockState) : Prop :=
  (s.tools = [] ∧ s.resources = []) ∨
  (s.tools = registeredTools ∧ s.resources = registeredResources)

/-- A fixed mock environment for concrete instantiations. -/
def constEnv : MockEnv := { evalResult := fun _ => "Result: 0", nowText := "now" }

end MockMcp

namespace Polling

/-- The status set the `exercise_2_mcp_agents.py` loop treats as
still-running: `["queued", "in_progress", "requires_action"]`. -/
def mcpNonTerminal (s : String) : Bool :=
  (["queued", "in_progress", "requires_action"] : List String).contains s

/-- `max_attempts = 60` of `create_mcp_agent_with_sqlite`. -/
def maxAttempts : Nat := 60

/-- The polling loop of `create_mcp_agent_with_sqlite`
(`while run.status in [...] and attempts < max_attempts:` with
`time.sleep(1); attempts += 1; run = runs.get(...)` as body), written
with structural fuel.  `f n` is the status the `(n+1)`-th `runs.get`
call returns.  `pollMcp` passes `fuel = maxAttempts`; the invariant
`maxAttempts ≤ attempts + fuel` makes the fuel-exhausted base case
coincide with the `attempts < max_attempts` guard failing, so the
function computes exactly what the source loop does.  The returned
`Nat` is the final `attempts` counter, which also counts the
`time.sleep(1)` calls (one per iteration). -/
def pollMcpGo (f : Nat → String) : Nat → String → Nat → Nat × String
  | 0, s, attempts => (attempts, s)
  | fuel + 1, s, attempts =>
    if mcpNonTerminal s && decide (attempts < maxAttempts) then
      pollMcpGo f fuel (f attempts) (attempts + 1)
    else (attempts, s)

/-- The MCP-agent polling loop, from the initial status returned by
`runs.create` and the stream of statuses returned by `runs.get`. -/
def pollMcp (f : Nat → String) (s0 : String) : Nat × String :=
  pollMcpGo f maxAttempts s0 0

/-- The status set the `exercise_2_basic_agent.py` loop treats as
still-running: `["queued", "in_progress"]`. -/
def basicNonTerminal (s : String) : Bool :=
  (["queued", "in_progress"] : List String).contains s

/-- The unbounded polling loop of `test_agent_conversation`
(`while run.status in ["queued", "in_progress"]: sleep(1); run = get(...)`),
with explicit fuel: `some s` means the loop exited with final status `s`
within `fuel` iterations, `none` that it was still running. -/
def pollBasicGo (f : Nat → String) : Nat → Nat → String → Option String
  | 0, _, _ => none
  | fuel + 1, i, s =>
    if basicNonTerminal s then pollBasicGo f fuel (i + 1) (f i) else some s

end Polling

namespace Scripts

/-- Coarse steps of a script's top-level control flow.  `loadConfig`:
`load_dotenv` / environment reading; `constructClient`: building the
cloud SDK client; `createAgent`: `create_agent` or get-or-create;
`startThread`: creating a conversation thread (directly or through the
SDK call that returns one); `pollRun`: waiting for run completion
(an explicit status loop or the SDK's `create_and_process` /
`get_response`); `printResults`: console output of outcomes;
`createDatabase`: building the SQLite file; `serveHttp`: entering
`HTTPServer.serve_forever`; `runLocalTests`: the in-process mock-server
test suite. -/
inductive Step where
  | loadConfig
  | constructClient
  | createAgent
  | startThread
  | pollRun
  | printResults
  | createDatabase
  | serveHttp
  | runLocalTests
deriving DecidableEq

/-- The fifteen source files of the repository. -/
inductive Script where
  | ex1Setup
  | ex2BasicAgent
  | ex3Conversation
  | toolsFileSearch
  | toolsCodeInterpreter
  | toolsFunctionCalling
  | toolsSharepoint
  | orchAzureAiAgent
  | orchSequential
  | orchSemanticKernel
  | orchAdvanced
  | mcpMockServer
  | mcpAgents
  | dbCreateScript
  | mcpServerScript
deriving DecidableEq, Fintype

/-- The step sequence the spec ascribes to every file. -/
def requiredSteps : List Step :=
  [.loadConfig, .constructClient, .createAgent, .startThread, .pollRun, .printResults]

/-- Transcription of each file's `__main__` flow into coarse steps.
`ex1Setup` validates the environment and lists deployments/agents but
creates no agent, thread or run; `mcpMockServer` runs in-process tests
with no configuration or cloud client; `dbCreateScript` only builds the
SQLite database; `mcpServerScript` prints a banner and serves HTTP
forever. -/
def scriptSteps : Script → List Step
  | .ex1Setup => [.loadConfig, .constructClient, .printResults]
  | .ex2BasicAgent => requiredSteps
  | .ex3Conversation => requiredSteps
  | .toolsFileSearch => requiredSteps
  | .toolsCodeInterpreter => requiredSteps
  | .toolsFunctionCalling => requiredSteps
  | .toolsSharepoint => requiredSteps
  | .orchAzureAiAgent => requiredSteps
  | .orchSequential => requiredSteps
  | .orchSemanticKernel => requiredSteps
  | .orchAdvanced => requiredSteps
  | .mcpMockServer => [.runLocalTests, .printResults]
  | .mcpAgents => requiredSteps
  | .dbCreateScript => [.createDatabase, .printResults]
  | .mcpServerScript => [.printResults, .serveHttp]

/-- Order-preserving subsequence test. -/
def isSubseqOf [DecidableEq α] : List α → List α → Bool
  | [], _ => true
  | _ :: _, [] => false
  | a :: as, b :: bs =>
    if a = b then isSubseqOf as bs else isSubseqOf (a :: as) bs

/-- The files that do not follow the agent-demo shape. -/
def nonAgentScripts : List Script :=
  [.ex1Setup, .mcpMockServer, .dbCreateScript, .mcpServerScript]

/-- The spec claim that every source file performs the load / client /
agent / thread / poll / print sequence. -/
def claimEveryScript : Prop :=
  ∀ s : Script, isSubseqOf requiredSteps (scriptSteps s) = true

end Scripts

open SqliteMcp MockMcp Polling Scripts

/-- Every successful branch of the SQLite server's method dispatch
builds its response with `jsonrpc = "2.0"` and the incoming id. -/
theorem mcpInner_ok_meta {σ : Type} (e : Engine σ) (st : σ) (req : MCPRequest)
    (r : MCPResponse) (st2 : σ) (h : mcpInner e st req = .ok (r, st2)) :
    r.jsonrpc = "2.0" ∧ r.id = req.id := by
  simp only [mcpInner] at h
  repeat' split at h
  all_goals rcases h with ⟨h1, h2⟩
  all_goals exact ⟨rfl, rfl⟩

/-- The SQLite server's dispatch can only raise inside the
`tools/call`, `resources/list` and `resources/read` branches. -/
theorem mcpInner_error_mem {σ : Type} (e : Engine σ) (st : σ) (req : MCPRequest)
    (msg : String) (h : mcpInner e st req = .error msg) :
    (req.method.getD "") ∈ handledMethods := by
  simp only [mcpInner] at h
  repeat' split at h
  all_goals simp_all [handledMethods]

/-- On the success path, the `-32601` method-not-found response is
returned exactly for methods outside the dispatched set. -/
theorem mcpInner_ok_notFound {σ : Type} (e : Engine σ) (st : σ) (req : MCPRequest)
    (r : MCPResponse) (st2 : σ) (h : mcpInner e st req = .ok (r, st2)) :
    (isMethodNotFound r = true ↔ (req.method.getD "") ∉ handledMethods) := by
  simp only [mcpInner] at h
  repeat' split at h
  all_goals rcases h with ⟨h1, h2⟩
  all_goals simp_all [isMethodNotFound, handledMethods, beq_iff_eq]

/-- Every successful branch of the mock server's method routing builds
its response with `jsonrpc = "2.0"` and the incoming id. -/
theorem mockInner_ok_meta (env : MockEnv) (s : MockState) (req : MockRequest)
    (r : MockResponse) (s2 : MockState) (h : mockInner env s req = .ok (r, s2)) :
    r.jsonrpc = "2.0" ∧ r.id = req.id := by
  simp only [mockInner] at h
  repeat' split at h
  all_goals rcases h with ⟨h1, h2⟩
  all_goals exact ⟨rfl, rfl⟩

/-- Handling a request leaves the mock server state unchanged except
that the `initialize` branch installs the registered dictionaries. -/
theorem mockInner_state (env : MockEnv) (s : MockState) (req : MockRequest)
    (r : MockResponse) (s2 : MockState) (h : mockInner env s req = .ok (r, s2)) :
    s2 = s ∨ s2 = { tools := registeredTools, resources := registeredResources } := by
  simp only [mockInner] at h
  repeat' split at h
  all_goals rcases h with ⟨h1, h2⟩
  all_goals first
    | (left; rfl)
    | (right; rfl)

/-- `goodState` is an invariant of `handle_request`. -/
theorem handle_request_goodState (env : MockEnv) (s : MockState) (req : MockRequest)
    (hs : goodState s) : goodState (handle_request env s req).2 := by
  unfold handle_request
  cases h : mockInner env s req with
  | error m => simpa using hs
  | ok pr =>
    rcases mockInner_state env s req pr.1 pr.2 (by rw [h]) with h2 | h2 <;> simp only
    · rw [h2]; exact hs
    · rw [h2]; right; exact ⟨rfl, rfl⟩

/-- The MCP-agent polling loop performs at most `attempts + fuel`
iterations. -/
theorem pollMcpGo_fst_le (f : Nat → String) :
    ∀ (fuel : Nat) (s : String) (a : Nat), (pollMcpGo f fuel s a).1 ≤ a + fuel := by
  intro fuel
  induction fuel with
  | zero => intro s a; simp [pollMcpGo]
  | succ n ih =>
    intro s a
    simp only [pollMcpGo]
    split
    · exact le_trans (ih (f a) (a + 1)) (by omega)
    · simp

/-- When the loop exits, either the status has left the non-terminal set
or the `attempts` counter has reached the bound (invariant:
`attempts + fuel = maxAttempts`). -/
theorem pollMcpGo_exit (f : Nat → String) :
    ∀ (fuel : Nat) (s : String) (a : Nat), a + fuel = maxAttempts →
      mcpNonTerminal (pollMcpGo f fuel s a).2 = false ∨
        (pollMcpGo f fuel s a).1 = maxAttempts := by
  intro fuel
  induction fuel with
  | zero =>
    intro s a h
    right
    simpa [pollMcpGo] using (by omega : a = maxAttempts)
  | succ n ih =>
    intro s a h
    simp only [pollMcpGo]
    split
    · exact ih (f a) (a + 1) (by omega)
    · rename_i hc
      left
      have ha : decide (a < maxAttempts) = true := by
        simp only [decide_eq_true_eq]; omega
      simp only [ha, Bool.and_true, Bool.not_eq_true] at hc
      exact hc

/-- If the unbounded basic-agent loop exits, the final status is outside
its non-terminal set. -/
theorem pollBasicGo_exit (f : Nat → String) :
    ∀ (fuel i : Nat) (s0 s : String), pollBasicGo f fuel i s0 = some s →
      basicNonTerminal s = false := by
  intro fuel
  induction fuel with
  | zero => intro i s0 s h; simp [pollBasicGo] at h
  | succ n ih =>
    intro i s0 s h
    simp only [pollBasicGo] at h
    split at h
    · exact ih (i + 1) (f i) s h
    · rename_i hc
      obtain rfl : s0 = s := Option.some.inj h
      simpa using hc

/-- C8: for every SQL string whose stripped upper-cased form starts with
SELECT or PRAGMA, `db_query` returns the fetched rows and performs no
explicit commit; for every other SQL string (including read-only
statements beginning with WITH) it commits and returns the `affected`
rowcount instead of rows. -/
theorem db_query_branches :
    (∀ (σ : Type) (e : Engine σ) (st : σ) (sql : String) (params : Option (List String))
        (rows : List Row) (rc : Int) (st2 : σ),
      e.exec st sql (params.getD []) = .ok (rows, rc, st2) →
        (isReadSql sql = true → db_query e st sql params = .ok (.rows rows, false, st2)) ∧
        (isReadSql sql = false → db_query e st sql params = .ok (.affected rc, true, st2)))
    ∧ isReadSql "WITH t AS (SELECT 1) SELECT x FROM t" = false
    ∧ isReadSql "  select 1" = true
    ∧ isReadSql "PRAGMA table_info(customers)" = true := by
  refine ⟨?_, by decide, by decide, by decide⟩
  intro σ e st sql params rows rc st2 hexec
  unfold db_query
  rw [hexec]
  constructor
  · intro hr; rw [hr]; rfl
  · intro hr; rw [hr]; rfl

/-- C8 witness: concrete instantiation on the trivial engine for a
SELECT and for an UPDATE statement. -/
theorem db_query_branches_witness :
    db_query unitEngine () "SELECT name FROM customers" none = .ok (.rows [], false, ()) ∧
    db_query unitEngine () "UPDATE t SET x = 1" none = .ok (.affected 0, true, ()) :=
  ⟨((db_query_branches.1 Unit unitEngine () "SELECT name FROM customers" none [] 0 () rfl).1
      (by decide)),
   ((db_query_branches.1 Unit unitEngine () "UPDATE t SET x = 1" none [] 0 () rfl).2
      (by decide))⟩

/-- C6: the SQLite MCP server keeps no protocol state across requests:
`handle_mcp` is a pure function of the request and the database state
(the embedding threads no other server state), so two runs on equal
requests against equal database contents return equal responses. -/
theorem handle_mcp_stateless :
    ∀ (σ : Type) (e : Engine σ) (st st2 : σ) (req req2 : MCPRequest),
      req = req2 → st = st2 → handle_mcp e st req = handle_mcp e st2 req2 := by
  intro σ e st st2 req req2 hreq hst
  rw [hreq, hst]

/-- C6 witness: the two-run property at a concrete request and
database. -/
theorem handle_mcp_stateless_witness :
    handle_mcp unitEngine () { method := some "tools/list", id := some (.num 1) } =
      handle_mcp unitEngine () { method := some "tools/list", id := some (.num 1) } :=
  handle_mcp_stateless Unit unitEngine () ()
    { method := some "tools/list", id := some (.num 1) }
    { method := some "tools/list", id := some (.num 1) } rfl rfl

/-- C4: every response of both MCP request handlers — success branches,
error branches and the catch-all branch alike — carries
`jsonrpc = "2.0"` and the id of the incoming request (`none` when the
request has no id). -/
theorem responses_carry_jsonrpc_and_id :
    (∀ (σ : Type) (e : Engine σ) (st : σ) (req : MCPRequest),
      (handle_mcp e st req).1.jsonrpc = "2.0" ∧ (handle_mcp e st req).1.id = req.id)
    ∧ (∀ (env : MockEnv) (s : MockState) (req : MockRequest),
      (handle_request env s req).1.jsonrpc = "2.0" ∧ (handle_request env s req).1.id = req.id) := by
  constructor
  · intro σ e st req
    unfold handle_mcp
    cases h : mcpInner e st req with
    | error msg => exact ⟨rfl, rfl⟩
    | ok pr => simpa using mcpInner_ok_meta e st req pr.1 pr.2 (by rw [h])
  · intro env s req
    unfold handle_request
    cases h : mockInner env s req with
    | error msg => exact ⟨rfl, rfl⟩
    | ok pr => simpa using mockInner_ok_meta env s req pr.1 pr.2 (by rw [h])

/-- C1: whenever handling raises (unknown tool, missing required
parameter, SQL error, invalid resource URI, unknown mock method), both
handlers catch the exception and return the `-32603` JSON-RPC error
object carrying the exception text and the request id — the SQLite
server puts the text in `message`, the mock server in `data` with
message `Internal error` — and nothing beyond this mapping happens: the
result is exactly that error response, with the state unchanged, and no
exception propagates (`handle_mcp` / `handle_request` are total
functions into responses). -/
theorem exceptions_map_to_json_error :
    (∀ (σ : Type) (e : Engine σ) (st : σ) (req : MCPRequest) (msg : String),
      mcpInner e st req = .error msg →
        handle_mcp e st req =
          ({ jsonrpc := "2.0", id := req.id, result := none,
             error := some { code := -32603, message := msg, data := none } }, st))
    ∧ (∀ (env : MockEnv) (s : MockState) (req : MockRequest) (msg : String),
      mockInner env s req = .error msg →
        handle_request env s req =
          ({ jsonrpc := "2.0", id := req.id, result := none,
             error := some { code := -32603, message := "Internal error",
                             data := some msg } }, s)) := by
  constructor
  · intro σ e st req msg h
    unfold handle_mcp
    rw [h]
  · intro env s req msg h
    unfold handle_request
    rw [h]

/-- C1 witness: a `tools/call` request for an unknown tool raises inside
the SQLite server's dispatch, and the handler returns the `-32603`
response with the exception text and the request id. -/
theorem exceptions_map_to_json_error_witness :
    handle_mcp unitEngine ()
        { method := some "tools/call", params := some { name := some "nonexistent_tool" },
          id := some (.num 7) } =
      ({ jsonrpc := "2.0", id := some (.num 7), result := none,
         error := some { code := -32603, message := "Unknown tool: nonexistent_tool",
                         data := none } }, ()) :=
  exceptions_map_to_json_error.1 Unit unitEngine ()
    { method := some "tools/call", params := some { name := some "nonexistent_tool" },
      id := some (.num 7) } "Unknown tool: nonexistent_tool" rfl

/-- The method-not-found response is returned exactly for method names
outside `handledMethods`, independently of engine and database. -/
theorem handle_mcp_notFound_iff (σ : Type) (e : Engine σ) (st : σ) (req : MCPRequest) :
    isMethodNotFound (handle_mcp e st req).1 = true ↔
      (req.method.getD "") ∉ handledMethods := by
  unfold handle_mcp
  cases h : mcpInner e st req with
  | error msg =>
    have hmem := mcpInner_error_mem e st req msg h
    simp only [isMethodNotFound]
    constructor
    · intro hbad; exact absurd hbad (by decide)
    · intro hbad; exact absurd hmem hbad
  | ok pr =>
    simpa using mcpInner_ok_notFound e st req pr.1 pr.2 (by rw [h])

/-- `dispatches` agrees with membership in `handledMethods`. -/
theorem dispatches_iff (m : String) : dispatches m = true ↔ m ∈ handledMethods := by
  have h := handle_mcp_notFound_iff Unit unitEngine () { method := some m }
  unfold dispatches
  cases hb : isMethodNotFound (handle_mcp unitEngine () { method := some m }).1 with
  | true =>
    rw [hb] at h
    simp only [true_iff] at h
    simpa using h
  | false =>
    rw [hb] at h
    simp only [false_iff] at h
    simpa [not_not] using h

/-- C2 counterexample: the claim of exactly six dispatched JSON-RPC
method names is false — the handler dispatches five, so no
duplicate-free six-element list collects exactly the dispatched
names. -/
theorem not_six_methods : ¬ claimSixMethods := by
  rintro ⟨ms, hnd, hlen, hiff⟩
  have hmem : ∀ m, m ∈ ms ↔ m ∈ handledMethods := by
    intro m; rw [← hiff m, dispatches_iff m]
  have hfs : ms.toFinset = handledMethods.toFinset := by
    ext a; simpa [List.mem_toFinset] using hmem a
  have h1 : ms.toFinset.card = 6 := by rw [List.toFinset_card_of_nodup hnd, hlen]
  have h2 : handledMethods.toFinset.card = 5 := by decide
  rw [hfs, h2] at h1
  exact absurd h1 (by decide)

/-- C2 amended: the single request handler dispatches exactly five
distinct JSON-RPC method names — `initialize`, `tools/list`,
`tools/call`, `resources/list`, `resources/read` — and a request with
any method name outside that set is answered with the `-32601`
method-not-found error rather than dispatched. -/
theorem five_methods_dispatched :
    (∀ (σ : Type) (e : Engine σ) (st : σ) (req : MCPRequest),
      isMethodNotFound (handle_mcp e st req).1 = true ↔
        (req.method.getD "") ∉ handledMethods)
    ∧ handledMethods.Nodup ∧ handledMethods.length = 5 :=
  ⟨fun σ e st req => handle_mcp_notFound_iff σ e st req, by decide, rfl⟩

/-- C3 counterexample: when every `runs.get` call returns `queued`, the
MCP-agent polling loop exits after 60 iterations with the run still in
the non-terminal status `queued`, so the loop can exit in a
non-terminal state. -/
theorem poll_exits_nonterminal : pollMcp (fun _ => "queued") "queued" = (60, "queued") ∧
    mcpNonTerminal "queued" = true := by
  exact ⟨rfl, rfl⟩

/-- C3 amended: each cited polling loop re-fetches the run status at a
fixed one-second interval; the basic-agent loop exits only when the
status has left its non-terminal set `["queued", "in_progress"]`, while
the MCP-agent loop exits when the status has left
`["queued", "in_progress", "requires_action"]` or when the 60-attempt
bound is reached, so it may exit with the run still non-terminal. -/
theorem poll_loops_exit_condition :
    (∀ (f : Nat → String) (s0 : String),
      mcpNonTerminal (pollMcp f s0).2 = false ∨ (pollMcp f s0).1 = maxAttempts)
    ∧ (∀ (f : Nat → String) (fuel i : Nat) (s0 s : String),
      pollBasicGo f fuel i s0 = some s → basicNonTerminal s = false) := by
  constructor
  · intro f s0
    exact pollMcpGo_exit f maxAttempts s0 0 (by omega)
  · intro f fuel i s0 s h
    exact pollBasicGo_exit f fuel i s0 s h

/-- C3 amended witness: the basic-agent loop on a run that completes
after one fetch exits with the terminal status `completed`. -/
theorem poll_loops_exit_condition_witness :
    basicNonTerminal "completed" = false :=
  poll_loops_exit_condition.2 (fun _ => "completed") 5 0 "queued" "completed" rfl

/-- C9: the MCP-agent polling loop terminates on every status stream —
its `attempts` counter (which also counts the one-second sleeps, one
per iteration) never exceeds `max_attempts = 60` — and it can exit
while the run is still non-terminal, as the constant-`queued` stream
shows. -/
theorem poll_mcp_bounded :
    (∀ (f : Nat → String) (s0 : String), (pollMcp f s0).1 ≤ maxAttempts)
    ∧ pollMcp (fun _ => "queued") "queued" = (60, "queued")
    ∧ mcpNonTerminal "queued" = true := by
  refine ⟨?_, rfl, rfl⟩
  intro f s0
  simpa using pollMcpGo_fst_le f maxAttempts s0 0

/-- C7 counterexample: not every source file performs the
load-config / client / agent / thread / poll / print sequence — the
database-creation script only builds the SQLite file and prints. -/
theorem not_every_script_agent_shaped : ¬ claimEveryScript := by
  intro h
  exact absurd (h .dbCreateScript) (by decide)

/-- C7 amended: the eleven agent-demo scripts perform the load-config /
construct-client / create-or-reuse-agent / start-thread / poll / print
sequence, while the environment-validation script, the mock-MCP-server
exercise, the database-creation script and the MCP-server script do
not. -/
theorem agent_scripts_shape :
    ∀ s : Script, isSubseqOf requiredSteps (scriptSteps s) = !(nonAgentScripts.contains s) := by
  decide

/-- C10: a GET whose parsed path is neither `/health` nor
`/capabilities` is answered with HTTP status 200 and the
`Not found` body, while a POST to a path other than `/` or `/mcp` is
answered with HTTP status 404. -/
theorem http_routing :
    (∀ p : String, parsePath p ≠ "/health" → parsePath p ≠ "/capabilities" →
      do_GET p = { status := 200, body := notFoundBody })
    ∧ (∀ (σ : Type) (e : Engine σ) (st : σ) (p : String) (body : Except Unit MCPRequest),
      (["/", "/mcp"] : List String).contains (parsePath p) = false →
      do_POST e st p body = ({ status := 404, body := notFoundBody }, st)) := by
  constructor
  · intro p h1 h2
    unfold do_GET
    rw [if_neg h1, if_neg h2]
  · intro σ e st p body h
    unfold do_POST
    simp only [h, Bool.not_false, if_true]

/-- C10 witness: the routing at the concrete path `/nope` for GET and
POST. -/
theorem http_routing_witness :
    do_GET "/nope" = { status := 200, body := notFoundBody } ∧
    do_POST unitEngine () "/nope" (.ok {}) = ({ status := 404, body := notFoundBody }, ()) :=
  ⟨http_routing.1 "/nope" (by decide) (by decide),
   http_routing.2 Unit unitEngine () "/nope" (.ok {}) (by decide)⟩

/-- The `tools/call` dispatch reaches a tool implementation exactly for
the names of the `TOOLS` table. -/
theorem toolBranch_iff (tool : Option String) :
    (toolBranch tool).isSome = true ↔ ∃ n, tool = some n ∧ n ∈ toolNames := by
  unfold toolBranch
  split_ifs with h1 h2 h3
  · simp [h1, toolNames, TOOLS]
  · simp [h2, toolNames, TOOLS]
  · simp [h3, toolNames, TOOLS]
  · simp only [Option.isSome_none, Bool.false_eq_true, false_iff]
    rintro ⟨n, rfl, hn⟩
    simp only [toolNames, TOOLS, List.map_cons, List.map_nil, List.mem_cons,
      List.mem_singleton, List.not_mem_nil, or_false] at hn
    rcases hn with rfl | rfl | rfl
    · exact h1 rfl
    · exact h2 rfl
    · exact h3 rfl

/-- In every reachable mock-server state, `call_tool` reaches a tool
implementation exactly for the keys of the `tools` dictionary. -/
theorem mockToolBranch_good (s : MockState) (hs : goodState s) (n : Option String) :
    (mockToolBranch s.tools n).isSome = true ↔
      ∃ k, n = some k ∧ k ∈ s.tools.map Prod.fst := by
  rcases hs with ⟨ht, _⟩ | ⟨ht, _⟩
  · rw [ht]
    cases n with
    | none => simp [mockToolBranch, mockHasTool]
    | some k => simp [mockToolBranch, mockHasTool]
  · rw [ht]
    cases n with
    | none => simp [mockToolBranch, mockHasTool, registeredTools]
    | some k =>
      have hHas : mockHasTool registeredTools (some k) = true ↔
          k ∈ registeredTools.map Prod.fst := by
        simp [mockHasTool, List.find?_isSome, List.mem_map, beq_iff_eq]
      constructor
      · intro hb
        have hht : mockHasTool registeredTools (some k) = true := by
          by_contra hc
          have hc2 : mockHasTool registeredTools (some k) = false :=
            Bool.not_eq_true _ ▸ hc
          unfold mockToolBranch at hb
          rw [hc2] at hb
          simp at hb
        exact ⟨k, rfl, hHas.mp hht⟩
      · rintro ⟨k2, hk2, hmem⟩
        have hkk : k = k2 := by injection hk2
        subst hkk
        have hcase : k = "echo" ∨ k = "calculate" ∨ k = "current_time" := by
          simpa [registeredTools] using hmem
        rcases hcase with rfl | rfl | rfl <;> decide

/-- C5: `tools/list` and `tools/call` agree with the dispatch tables of
both servers.  SQLite server: the `tools/call` dispatch reaches a tool
implementation exactly for the names of `TOOLS` (and reaches the
matching implementation), any other name yields an error naming the
unknown tool, and `tools/list` lists exactly the `TOOLS` entries with
their descriptions and input schemas.  Mock server: in every reachable
state, `call_tool` reaches an implementation exactly for the keys of
the `tools` dictionary, any other name raises an error naming the
unknown tool, `tools/list` lists exactly the dictionary values, and the
listed entries carry the dictionary keys as their names. -/
theorem tools_dispatch_agreement :
    (∀ tool : Option String,
      (toolBranch tool).isSome = true ↔ ∃ n, tool = some n ∧ n ∈ toolNames)
    ∧ (∀ (tool : Option String), toolBranch tool = none →
        ∀ (σ : Type) (e : Engine σ) (st : σ) (args : ToolArgs),
          dispatchToolCall e st tool args = .error ("Unknown tool: " ++ pyOptStr tool))
    ∧ (∀ (σ : Type) (e : Engine σ) (st : σ) (args : ToolArgs),
        dispatchToolCall e st (some "sql_query") args = runSqlQuery e st args ∧
        dispatchToolCall e st (some "list_tables") args = runListTables e st ∧
        dispatchToolCall e st (some "table_schema") args = runTableSchema e st args)
    ∧ (∀ (σ : Type) (e : Engine σ) (st : σ) (req : MCPRequest),
        req.method = some "tools/list" →
        (handle_mcp e st req).1.result = some (.toolsList (TOOLS.map fun nt =>
          ({ name := nt.1, description := nt.2.description,
             inputSchema := nt.2.inputSchema } : ToolEntry))))
    ∧ (∀ (s : MockState) (n : Option String), goodState s →
        ((mockToolBranch s.tools n).isSome = true ↔
          ∃ k, n = some k ∧ k ∈ s.tools.map Prod.fst))
    ∧ (∀ (env : MockEnv) (s : MockState) (p : MockParams),
        mockHasTool s.tools p.name = false →
        mockCallTool env s p = .error ("Unknown tool: " ++ pyOptStr p.name))
    ∧ (∀ (env : MockEnv) (s : MockState) (req : MockRequest),
        req.method = some "tools/list" →
        (handle_request env s req).1.result = some (.toolsList (s.tools.map Prod.snd)))
    ∧ ((registeredTools.map Prod.snd).map MockTool.name = registeredTools.map Prod.fst) := by
  refine ⟨toolBranch_iff, ?_, ?_, ?_, fun s n hs => mockToolBranch_good s hs n, ?_, ?_,
    by decide⟩
  · intro tool h σ e st args
    unfold toolBranch at h
    unfold dispatchToolCall
    split_ifs at h ⊢ <;> simp_all
  · intro σ e st args
    refine ⟨rfl, ?_, ?_⟩
    · unfold dispatchToolCall
      rw [if_neg (by decide), if_pos rfl]
    · unfold dispatchToolCall
      rw [if_neg (by decide), if_neg (by decide), if_pos rfl]
  · intro σ e st req h
    unfold handle_mcp mcpInner
    rw [h]
    simp
  · intro env s p h
    simp [mockCallTool, h]
  · intro env s req h
    unfold handle_request mockInner
    rw [h]
    simp

/-- C5 witness: an unknown tool name is rejected with an error naming it
by the SQLite server; the freshly constructed mock server (empty tools
dictionary) rejects even `echo`; and after registration the mock
dispatch reaches the `echo` implementation. -/
theorem tools_dispatch_agreement_witness :
    dispatchToolCall unitEngine () (some "made_up") {} = .error "Unknown tool: made_up" ∧
    mockCallTool constEnv {} { name := some "echo" } = .error "Unknown tool: echo" ∧
    (mockToolBranch ({ tools := registeredTools, resources := registeredResources } :
        MockState).tools (some "echo")).isSome = true :=
  ⟨tools_dispatch_agreement.2.1 (some "made_up") (by decide) Unit unitEngine () {},
   tools_dispatch_agreement.2.2.2.2.2.1 constEnv {} { name := some "echo" } (by decide),
   (tools_dispatch_agreement.2.2.2.2.1
      { tools := registeredTools, resources := registeredResources } (some "echo")
      (Or.inr ⟨rfl, rfl⟩)).mpr ⟨"echo", rfl, by decide⟩⟩
